import Mathlib

/-!
Verification of the FixIT backend's real-time coordination layer.

The development shallowly embeds the JavaScript source:
numbers become rationals, JS Maps become association lists,
Mongo documents become Lean structures, and each controller or socket
handler becomes an executable Lean function that mirrors the source
line by line.  Theorems about the embedding settle the behavioural
claims of the specification.
-/

/-! ## JavaScript string semantics helpers -/

/-- ASCII lower-casing of one character, as JS toLowerCase acts on ASCII data. -/
def lowerChar (c : Char) : Char :=
  if 65 ≤ c.toNat ∧ c.toNat ≤ 90 then Char.ofNat (c.toNat + 32) else c

/-- JS String.prototype.toLowerCase restricted to ASCII content. -/
def jsToLower (s : String) : String := String.mk (s.data.map lowerChar)

/-- Does the second character sequence start with the first one? -/
def segStartsWith : List Char → List Char → Bool
  | [], _ => true
  | _ :: _, [] => false
  | a :: as, b :: bs => a == b && segStartsWith as bs

/-- Does the needle occur contiguously inside the haystack? -/
def segOccurs (needle : List Char) : List Char → Bool
  | [] => needle.isEmpty
  | c :: rest => segStartsWith needle (c :: rest) || segOccurs needle rest

/-- JS String.prototype.includes: needle occurs inside hay. -/
def strIncludes (hay needle : String) : Bool := segOccurs needle.data hay.data

/-! ## JS Map semantics: association lists keyed by naturals -/

/-- JS Map.prototype.set: insert or overwrite the binding for k. -/
def mapSet {α : Type} (m : List (ℕ × α)) (k : ℕ) (v : α) : List (ℕ × α) :=
  (k, v) :: m.filter (fun p => p.1 != k)

/-- JS Map.prototype.delete: drop the binding for k, no-op when absent. -/
def mapDelete {α : Type} (m : List (ℕ × α)) (k : ℕ) : List (ℕ × α) :=
  m.filter (fun p => p.1 != k)

/-- JS Map.prototype.get. -/
def mapGet {α : Type} (m : List (ℕ × α)) (k : ℕ) : Option α :=
  (m.find? (fun p => p.1 == k)).map (fun p => p.2)

/-- JS Map.prototype.has. -/
def mapHas {α : Type} (m : List (ℕ × α)) (k : ℕ) : Bool := (mapGet m k).isSome

/-! ## Data model (src/models/User.js, src/models/Issue.js) -/

/-- One entry of the skills array of the user schema. -/
structure Skill where
  name : String
  level : String := "intermediate"
  verified : Bool := false
deriving DecidableEq

/-- The contributions sub-document of the user schema. -/
structure Contributions where
  issuesResolved : ℚ := 0
  issuesPosted : ℚ := 0
  totalTimeHelped : ℚ := 0
  points : ℚ := 0
deriving DecidableEq

/-- The rating sub-document of the user schema. -/
structure RatingStats where
  average : ℚ := 0
  count : ℕ := 0
deriving DecidableEq

/-- A user document.  Identifiers are modelled as naturals, dates as
rational millisecond timestamps, and the availability enum keeps its
string representation from the schema. -/
structure User where
  id : ℕ
  department : String := ""
  skills : List Skill := []
  rating : RatingStats := {}
  contributions : Contributions := {}
  availability : String := "available"
  lastActive : ℚ := 0
  isActive : Bool := true
deriving DecidableEq

/-- An issue document, with the fields the coordination layer reads and
writes.  The status enum keeps its string representation, and the
resolution sub-document is flattened into optional fields. -/
structure Issue where
  id : ℕ
  title : String := ""
  category : String := "other"
  priority : String := "medium"
  status : String := "open"
  postedBy : ℕ
  assignedTo : Option ℕ := none
  requiredSkills : List String := []
  upvotes : List ℕ := []
  downvotes : List ℕ := []
  resolvedBy : Option ℕ := none
  solution : Option String := none
  resolvedAt : Option ℚ := none
  timeSpent : ℚ := 0
deriving DecidableEq

/-! ## Helper scoring (User.js, calculateHelperScore, lines 141-202)

The method computes four sub-scores into local variables and then the
weighted, priority-scaled total; each local variable becomes one
definition below. -/

/-- Lines 148: the user's skill names, lower-cased. -/
def User.userSkillNames (u : User) : List String :=
  u.skills.map (fun s => jsToLower s.name)

/-- Lines 149-151: the required skills that match a user skill name
case-insensitively. -/
def User.matchingSkills (u : User) (requiredSkills : List String) : List String :=
  requiredSkills.filter (fun s => u.userSkillNames.contains (jsToLower s))

/-- Line 152: skillScore = matchingSkills.length / requiredSkills.length. -/
def User.skillScore (u : User) (requiredSkills : List String) : ℚ :=
  ((u.matchingSkills requiredSkills).length : ℚ) / (requiredSkills.length : ℚ)

/-- Lines 155-158: history from points, resolved count and rating. -/
def User.historyScore (u : User) : ℚ :=
  let pointsScore := min (u.contributions.points / 100) 1
  let resolvedScore := min (u.contributions.issuesResolved / 10) 1
  let ratingScore := u.rating.average / 5
  pointsScore * 0.4 + resolvedScore * 0.3 + ratingScore * 0.3

/-- Lines 161-165: engagement from recency of activity and availability;
now is the current time in milliseconds. -/
def User.engagementScore (u : User) (now : ℚ) : ℚ :=
  let daysSinceLastActive := (now - u.lastActive) / (1000 * 60 * 60 * 24)
  let recencyScore := max 0 (1 - daysSinceLastActive / 30)
  let availabilityScore : ℚ :=
    if u.availability = "available" then 1 else if u.availability = "busy" then 0.5 else 0
  (recencyScore + availabilityScore) / 2

/-- Lines 168-176: the fixed category-to-department-keyword table. -/
def categoryToDepartments : List (String × List String) :=
  [("hardware", ["it", "infrastructure", "helpdesk", "support"]),
   ("software", ["it", "engineering", "development", "helpdesk"]),
   ("network", ["it", "network", "infrastructure", "security"]),
   ("printer", ["it", "helpdesk", "support"]),
   ("email", ["it", "helpdesk", "support"]),
   ("access", ["it", "security", "helpdesk"]),
   ("other", [])]

/-- Lines 177-179: domain relevance of the user's department for the
issue category (unknown categories fall back to the empty keyword list,
exactly like the JS table lookup with a default). -/
def User.domainScore (u : User) (category : String) : ℚ :=
  let dept := jsToLower u.department
  let domainList := (categoryToDepartments.lookup category).getD []
  if domainList.length = 0 then 0.2
  else if domainList.any (fun d => strIncludes dept d) then 1 else 0

/-- Lines 193-198: the priority multiplier table. -/
def priorityMultiplierMap : List (String × ℚ) :=
  [("urgent", 1.2), ("high", 1.1), ("medium", 1.0), ("low", 0.95)]

/-- Line 199: table lookup with default 1.0 (all table values are JS-truthy,
so the JS or-default is exactly a lookup with default). -/
def priorityMultiplier (priority : String) : ℚ :=
  (priorityMultiplierMap.lookup priority).getD 1.0

/-- Lines 182-201: the weighted base score scaled by the priority
multiplier.  In the JS signature category defaults to "other" and
priority defaults to "medium"; call sites that rely on the defaults pass
those strings explicitly here. -/
def User.calculateHelperScore (u : User) (now : ℚ) (requiredSkills : List String)
    (category : String) (priority : String) : ℚ :=
  let skillWeight : ℚ := 0.35
  let historyWeight : ℚ := 0.30
  let domainWeight : ℚ := 0.20
  let engagementWeight : ℚ := 0.15
  let baseScore := u.skillScore requiredSkills * skillWeight +
    u.historyScore * historyWeight + u.domainScore category * domainWeight +
    u.engagementScore now * engagementWeight
  baseScore * priorityMultiplier priority

/-! ## Issue methods (src/models/Issue.js) -/

/-- Lines 161-163: the voteCount virtual. -/
def Issue.voteCount (i : Issue) : ℤ :=
  (i.upvotes.length : ℤ) - (i.downvotes.length : ℤ)

/-- Lines 166-168: a user may vote when present in neither vote array. -/
def Issue.canVote (i : Issue) (userId : ℕ) : Bool :=
  !(i.upvotes.contains userId) && !(i.downvotes.contains userId)

/-- Lines 171-177: push an upvote when allowed, report whether it happened. -/
def Issue.addUpvote (i : Issue) (userId : ℕ) : Issue × Bool :=
  if i.canVote userId then ({ i with upvotes := i.upvotes ++ [userId] }, true)
  else (i, false)

/-- Lines 180-186: push a downvote when allowed, report whether it happened. -/
def Issue.addDownvote (i : Issue) (userId : ℕ) : Issue × Bool :=
  if i.canVote userId then ({ i with downvotes := i.downvotes ++ [userId] }, true)
  else (i, false)

/-- Lines 189-195: set the resolution fields; timeSpent defaults to 0 when
the argument is absent (or 0, which the JS or-default treats the same). -/
def Issue.resolve (i : Issue) (resolvedBy : ℕ) (solution : String)
    (timeSpent : Option ℚ) (now : ℚ) : Issue :=
  { i with status := "resolved", resolvedBy := some resolvedBy,
           solution := some solution, resolvedAt := some now,
           timeSpent := timeSpent.getD 0 }

/-! ## Issue store primitives (external contract of §6)

The Mongo collection is a list of issue documents; findById scans by
identifier and save writes a document back over the one with the same
identifier. -/

/-- Issue.findById. -/
def findById (db : List Issue) (id : ℕ) : Option Issue :=
  db.find? (fun i => i.id == id)

/-- document.save(): persist the in-memory document over the stored one
with the same identifier. -/
def save (db : List Issue) (i : Issue) : List Issue :=
  db.map (fun j => if j.id == i.id then i else j)

/-! ## Issue controller (src/unnamed/part_004) -/

/-- Outcome of the vote endpoint: an HTTP error status with its message,
or the success payload of voteCount and the two array lengths. -/
inductive VoteOutcome where
  | badRequest (msg : String)
  | notFound (msg : String)
  | ok (voteCount : ℤ) (upvotes downvotes : ℕ)
deriving DecidableEq

/-- voteIssue (lines 382-425): validate the vote type, load the issue,
attempt the vote, and persist only on success; returns the possibly
updated store and the response. -/
def voteIssue (db : List Issue) (issueId : ℕ) (voteType : String) (userId : ℕ) :
    List Issue × VoteOutcome :=
  if !(["upvote", "downvote"].contains voteType) then
    (db, .badRequest "Invalid vote type")
  else
    match findById db issueId with
    | none => (db, .notFound "Issue not found")
    | some issue =>
      let attempt := if voteType = "upvote" then issue.addUpvote userId
                     else issue.addDownvote userId
      if !attempt.2 then (db, .badRequest "You have already voted on this issue")
      else (save db attempt.1, .ok attempt.1.voteCount attempt.1.upvotes.length
              attempt.1.downvotes.length)

/-- assignIssue (lines 251-297): require a helper id, load the issue,
check ownership and helper existence, then set assignedTo and status
and persist.  The source performs no check of the current status. -/
def assignIssue (db : List Issue) (users : List User) (requesterId : ℕ)
    (issueId : ℕ) (assignedTo : Option ℕ) : Except (ℕ × String) (List Issue × Issue) :=
  match assignedTo with
  | none => .error (400, "Helper ID is required")
  | some helperId =>
    match findById db issueId with
    | none => .error (404, "Issue not found")
    | some issue =>
      if issue.postedBy ≠ requesterId then
        .error (403, "Not authorized to assign this issue")
      else
        match users.find? (fun u => u.id == helperId) with
        | none => .error (404, "Helper not found")
        | some _ =>
          let issue2 := { issue with assignedTo := some helperId, status := "assigned" }
          .ok (save db issue2, issue2)

/-- A helper together with the score attached by the suggestion endpoint. -/
structure ScoredHelper where
  helper : User
  helperScore : ℚ
deriving DecidableEq

/-- The success payload of the suggestion endpoint. -/
structure SuggestionsData where
  issueId : ℕ
  title : String
  requiredSkills : List String
  helpers : List ScoredHelper
deriving DecidableEq

/-- Lines 215-218: the candidate query.  A user is selected when active
and some skill name matches some required skill used as a
case-insensitive regular expression, i.e. the required skill occurs
inside the name ignoring case. -/
def potentialHelpers (users : List User) (requiredSkills : List String) : List User :=
  users.filter (fun u => u.isActive &&
    u.skills.any (fun sk =>
      requiredSkills.any (fun r => strIncludes (jsToLower sk.name) (jsToLower r))))

/-- getHelperSuggestions (lines 204-246): load the issue, query and score
the candidates, sort by score descending (JS sort with a numeric
comparator; modelled by a merge sort with the matching total order) and
return the top 10.  The score call passes only the required skills, so
the category and priority parameters take their JS defaults, made
explicit here as "other" and "medium". -/
def getHelperSuggestions (db : List Issue) (users : List User) (issueId : ℕ)
    (now : ℚ) : Except (ℕ × String) SuggestionsData :=
  match findById db issueId with
  | none => .error (404, "Issue not found")
  | some issue =>
    let helpersWithScores := (potentialHelpers users issue.requiredSkills).map
      (fun u => ScoredHelper.mk u
        (u.calculateHelperScore now issue.requiredSkills "other" "medium"))
    let sorted := helpersWithScores.mergeSort
      (fun a b => decide (b.helperScore ≤ a.helperScore))
    let topHelpers := sorted.take 10
    .ok { issueId := issue.id, title := issue.title,
          requiredSkills := issue.requiredSkills, helpers := topHelpers }

/-! ## Socket service (src/unnamed/part_001, src/services/socketService.js) -/

/-- A live connection: the socket identifier together with the
authenticated user attached by the middleware. -/
structure Socket where
  id : ℕ
  userId : ℕ
deriving DecidableEq

/-- The two in-memory connection maps of the service. -/
structure SocketService where
  connectedUsers : List (ℕ × ℕ) := []
  userSockets : List (ℕ × ℕ) := []
deriving DecidableEq

/-- Connection handler, lines 58-60: register the connection in the
forward map (userId to socket) and the inverse map (socketId to userId),
overwriting any previous binding. -/
def SocketService.handleConnection (svc : SocketService) (s : Socket) : SocketService :=
  { svc with connectedUsers := mapSet svc.connectedUsers s.userId s.id,
             userSockets := mapSet svc.userSockets s.id s.userId }

/-- handleDisconnect, part_001 lines 339-348: delete from connectedUsers
by the socket's user id and from userSockets by the socket id. -/
def SocketService.handleDisconnect (svc : SocketService) (s : Socket) : SocketService :=
  { svc with connectedUsers := mapDelete svc.connectedUsers s.userId,
             userSockets := mapDelete svc.userSockets s.id }

/-- isUserOnline, lines 370-372. -/
def SocketService.isUserOnline (svc : SocketService) (userId : ℕ) : Bool :=
  mapHas svc.connectedUsers userId

/-- One outbound event: the room (or direct socket) it is emitted to and
the event name. -/
structure Emit where
  target : String
  event : String
deriving DecidableEq

/-- The payload of message:send; JS destructuring of a missing key
yields undefined, modelled by an optional field. -/
structure PrivateMessagePayload where
  recipientId : Option ℕ := none
  message : Option String := none
  issueId : Option ℕ := none
deriving DecidableEq

/-- The payload of issue:update. -/
structure IssueUpdatePayload where
  issueId : Option ℕ := none
  updates : Option String := none
deriving DecidableEq

/-- String interpolation of a possibly-undefined identifier, as a JS
template literal renders it. -/
def jsField : Option ℕ → String
  | none => "undefined"
  | some n => toString n

/-- handlePrivateMessage, part_001 lines 218-240: emit message:received
to the recipient's personal room and a message:sent confirmation back to
the sender.  No validation is performed; an entirely absent payload
makes the destructuring statement throw, modelled as the error case. -/
def handlePrivateMessage (senderId : ℕ) (data : Option PrivateMessagePayload) :
    Except String (List Emit) :=
  match data with
  | none => .error "TypeError: cannot destructure absent payload"
  | some d =>
    .ok [{ target := "user:" ++ jsField d.recipientId, event := "message:received" },
         { target := "socket:" ++ toString senderId, event := "message:sent" }]

/-- handleIssueUpdate, socketService.js lines 126-140: broadcast
issue:updated to the sender's department room, sender excluded.  Again
no validation: a payload with missing keys is broadcast with undefined
fields. -/
def handleIssueUpdate (senderDepartment : String) (data : Option IssueUpdatePayload) :
    Except String (List Emit) :=
  match data with
  | none => .error "TypeError: cannot destructure absent payload"
  | some _ =>
    .ok [{ target := "department:" ++ senderDepartment, event := "issue:updated" }]

/-! ## The accepted help-respond transaction (part_001 lines 265-320)

When accepted is true the handler runs a detached async block: it awaits
Issue.findById, performs its checks on the loaded document, mutates the
document and awaits document.save.  The await between load and save is a
scheduling point, so two accepted responses for the same issue can both
load before either saves.  The block is modelled as two atomic phases
against the shared store. -/

/-- The fields of a help:respond payload used by the accept path. -/
structure HelpRespondMsg where
  responderId : ℕ
  toUserId : ℕ
  issueId : ℕ
deriving DecidableEq

/-- Phase one, line 285: the awaited load of the issue snapshot. -/
def helpRespondLoad (db : List Issue) (m : HelpRespondMsg) : Option Issue :=
  findById db m.issueId

/-- Phase two, lines 286-305: the checks on the loaded snapshot followed
by the unconditional save and the two issue:assigned notifications.
Returns the new store and the emitted events (empty on any early
return). -/
def helpRespondCommit (db : List Issue) (m : HelpRespondMsg)
    (snapshot : Option Issue) : List Issue × List Emit :=
  match snapshot with
  | none => (db, [])
  | some issue =>
    if issue.postedBy ≠ m.toUserId then (db, [])
    else if issue.status = "resolved" ∨ issue.status = "closed" then (db, [])
    else
      (save db { issue with assignedTo := some m.responderId, status := "assigned" },
       [{ target := "user:" ++ toString m.responderId, event := "issue:assigned" },
        { target := "user:" ++ toString m.toUserId, event := "issue:assigned" }])

/-- The racy interleaving: both transactions load the same snapshot
before either commits; the first commit's store is then overwritten by
the second commit's save. -/
def helpRespondRace (db : List Issue) (m1 m2 : HelpRespondMsg) :
    List Issue × List Emit × List Emit :=
  let snap1 := helpRespondLoad db m1
  let snap2 := helpRespondLoad db m2
  let r1 := helpRespondCommit db m1 snap1
  let r2 := helpRespondCommit r1.1 m2 snap2
  (r2.1, r1.2, r2.2)

/-! ## Specification-side formulas (spec.md §4.4)

These restate the ranking formulas in the specification's wording; the
refinement theorems below compare them with the source embedding. -/

/-- Spec history score: 0.4·min(points/100,1) + 0.3·min(issuesResolved/10,1)
+ 0.3·(ratingAverage/5). -/
def historySpec (u : User) : ℚ :=
  0.4 * min (u.contributions.points / 100) 1 +
  0.3 * min (u.contributions.issuesResolved / 10) 1 +
  0.3 * (u.rating.average / 5)

/-- Spec availability mapping: available to 1, busy to 0.5, unavailable
to 0. -/
def availabilityFactor (availability : String) : ℚ :=
  if availability = "available" then 1
  else if availability = "busy" then 0.5
  else 0

/-- Spec recency: max(0, 1 - daysSinceLastActive/30), days measured in
86400000 milliseconds. -/
def recencySpec (u : User) (now : ℚ) : ℚ :=
  max 0 (1 - ((now - u.lastActive) / 86400000) / 30)

/-- Spec engagement score: (recency + availability) / 2. -/
def engagementSpec (u : User) (now : ℚ) : ℚ :=
  (recencySpec u now + availabilityFactor u.availability) / 2

/-- Spec domain score: 1 when the department contains a keyword of the
category's fixed table, 0.2 when the category maps to no keywords, else 0. -/
def domainSpec (u : User) (category : String) : ℚ :=
  let keywords := (categoryToDepartments.lookup category).getD []
  if keywords = [] then 0.2
  else if keywords.any (fun k => strIncludes (jsToLower u.department) k) then 1
  else 0

/-- Spec priority factor: urgent 1.2, high 1.1, medium 1.0, low 0.95,
anything else 1.0. -/
def priorityFactorSpec (priority : String) : ℚ :=
  if priority = "urgent" then 1.2
  else if priority = "high" then 1.1
  else if priority = "medium" then 1.0
  else if priority = "low" then 0.95
  else 1.0

/-- Spec matched-skill count: the number of required skills matching one
of the candidate's skill names case-insensitively. -/
def matchedCountSpec (u : User) (req : List String) : ℕ :=
  (req.filter (fun s => u.skills.any (fun sk => jsToLower s == jsToLower sk.name))).length

/-- The vote-set invariant of the data model: an identity appears in at
most one of the two vote arrays, and at most once in it. -/
def voteInvariant (i : Issue) : Prop :=
  ∀ u : ℕ, i.upvotes.count u + i.downvotes.count u ≤ 1

/-! ## Bridging lemmas between source and specification formulas -/

theorem priorityMultiplier_eq_spec (p : String) :
    priorityMultiplier p = priorityFactorSpec p := by
  by_cases h1 : p = "urgent"
  · subst h1; rfl
  by_cases h2 : p = "high"
  · subst h2; rfl
  by_cases h3 : p = "medium"
  · subst h3; rfl
  by_cases h4 : p = "low"
  · subst h4; rfl
  have b1 : (p == "urgent") = false := by simp [h1]
  have b2 : (p == "high") = false := by simp [h2]
  have b3 : (p == "medium") = false := by simp [h3]
  have b4 : (p == "low") = false := by simp [h4]
  unfold priorityMultiplier priorityMultiplierMap priorityFactorSpec
  simp only [List.lookup, b1, b2, b3, b4, Option.getD_none]
  simp [h1, h2, h3, h4]

theorem historyScore_eq_spec (u : User) : u.historyScore = historySpec u := by
  unfold User.historyScore historySpec
  ring

theorem engagementScore_eq_spec (u : User) (now : ℚ) :
    u.engagementScore now = engagementSpec u now := by
  unfold User.engagementScore engagementSpec recencySpec availabilityFactor
  norm_num

theorem domainScore_eq_spec (u : User) (cat : String) :
    u.domainScore cat = domainSpec u cat := by
  unfold User.domainScore domainSpec
  simp [List.length_eq_zero]

/-- C4: the helper score returned by the scoring function equals the
weighted sum 0.35·skill + 0.30·history + 0.20·domain + 0.15·engagement
of the specification's sub-scores, scaled by the specification's
priority factor (1.2, 1.1, 1.0, 0.95, default 1.0). -/
theorem calculateHelperScore_formula (u : User) (now : ℚ) (req : List String)
    (cat pri : String) :
    u.calculateHelperScore now req cat pri =
      (0.35 * u.skillScore req + 0.30 * historySpec u + 0.20 * domainSpec u cat +
        0.15 * engagementSpec u now) * priorityFactorSpec pri := by
  unfold User.calculateHelperScore
  rw [historyScore_eq_spec, engagementScore_eq_spec, domainScore_eq_spec,
    priorityMultiplier_eq_spec]
  ring

theorem contains_lower_names (skills : List Skill) (s : String) :
    (skills.map (fun sk => jsToLower sk.name)).contains (jsToLower s) =
      skills.any (fun sk => jsToLower s == jsToLower sk.name) := by
  induction skills with
  | nil => rfl
  | cons a as ih => simp only [List.map_cons, List.contains_cons, List.any_cons, ih]

theorem matchingSkills_length_eq (u : User) (req : List String) :
    (u.matchingSkills req).length = matchedCountSpec u req := by
  unfold User.matchingSkills matchedCountSpec User.userSkillNames
  exact congrArg List.length
    (List.filter_congr (fun s _ => contains_lower_names u.skills s))

theorem skillScore_nonneg (u : User) (req : List String) : 0 ≤ u.skillScore req := by
  unfold User.skillScore
  positivity

theorem skillScore_le_one (u : User) (req : List String) (h : req ≠ []) :
    u.skillScore req ≤ 1 := by
  unfold User.skillScore User.matchingSkills
  rw [div_le_one (by exact_mod_cast List.length_pos.mpr h)]
  exact_mod_cast List.length_filter_le _ _

/-- C3: the skill sub-score is the number of case-insensitively matched
required skills over the number of required skills; it lies in the unit
interval, is monotone in the matched count, and the candidate with
skills network against required network and vpn scores one half. -/
theorem skillScore_spec (u v : User) (req : List String) (hreq : req ≠ []) :
    u.skillScore req = (matchedCountSpec u req : ℚ) / (req.length : ℚ)
  ∧ 0 ≤ u.skillScore req ∧ u.skillScore req ≤ 1
  ∧ ((u.matchingSkills req).length ≤ (v.matchingSkills req).length →
      u.skillScore req ≤ v.skillScore req)
  ∧ User.skillScore { id := 100, skills := [{ name := "network" }] } ["network", "vpn"]
      = 1 / 2 := by
  refine ⟨?_, skillScore_nonneg u req, skillScore_le_one u req hreq, ?_, ?_⟩
  · unfold User.skillScore
    rw [matchingSkills_length_eq]
  · intro hm
    unfold User.skillScore
    have hc : (0 : ℚ) < (req.length : ℚ) := by
      exact_mod_cast List.length_pos.mpr hreq
    exact (div_le_div_iff_of_pos_right hc).mpr (by exact_mod_cast hm)
  · have hms : User.matchingSkills { id := 100, skills := [{ name := "network" }] }
        ["network", "vpn"] = ["network"] := by decide
    unfold User.skillScore
    rw [hms]
    norm_num

theorem skillScore_spec_witness :
    (["network", "vpn"] ≠ ([] : List String)) ∧
      User.skillScore { id := 100, skills := [{ name := "network" }] } ["network", "vpn"]
        = 1 / 2 :=
  ⟨by decide,
   (skillScore_spec { id := 100, skills := [{ name := "network" }] }
      { id := 100, skills := [{ name := "network" }] }
      ["network", "vpn"] (by decide)).2.2.2.2⟩

theorem availabilityFactor_bounds (a : String) :
    0 ≤ availabilityFactor a ∧ availabilityFactor a ≤ 1 := by
  unfold availabilityFactor
  constructor <;> split_ifs <;> norm_num

theorem recencySpec_bounds (u : User) (now : ℚ) (hlast : u.lastActive ≤ now) :
    0 ≤ recencySpec u now ∧ recencySpec u now ≤ 1 := by
  unfold recencySpec
  constructor
  · exact le_max_left _ _
  · refine max_le (by norm_num) ?_
    have hd : 0 ≤ (now - u.lastActive) / 86400000 :=
      div_nonneg (sub_nonneg.mpr hlast) (by norm_num)
    have hd30 : 0 ≤ (now - u.lastActive) / 86400000 / 30 :=
      div_nonneg hd (by norm_num)
    linarith

theorem engagementScore_bounds (u : User) (now : ℚ) (hlast : u.lastActive ≤ now) :
    0 ≤ u.engagementScore now ∧ u.engagementScore now ≤ 1 := by
  rw [engagementScore_eq_spec]
  unfold engagementSpec
  obtain ⟨h1, h2⟩ := recencySpec_bounds u now hlast
  obtain ⟨h3, h4⟩ := availabilityFactor_bounds u.availability
  constructor <;> linarith

theorem historyScore_bounds (u : User) (hpts : 0 ≤ u.contributions.points)
    (hres : 0 ≤ u.contributions.issuesResolved) (havg0 : 0 ≤ u.rating.average)
    (havg5 : u.rating.average ≤ 5) : 0 ≤ u.historyScore ∧ u.historyScore ≤ 1 := by
  rw [historyScore_eq_spec]
  unfold historySpec
  have h1 : 0 ≤ min (u.contributions.points / 100) 1 :=
    le_min (div_nonneg hpts (by norm_num)) zero_le_one
  have h2 : min (u.contributions.points / 100) 1 ≤ 1 := min_le_right _ _
  have h3 : 0 ≤ min (u.contributions.issuesResolved / 10) 1 :=
    le_min (div_nonneg hres (by norm_num)) zero_le_one
  have h4 : min (u.contributions.issuesResolved / 10) 1 ≤ 1 := min_le_right _ _
  have h5 : 0 ≤ u.rating.average / 5 := div_nonneg havg0 (by norm_num)
  have h6 : u.rating.average / 5 ≤ 1 := by
    rw [div_le_one (by norm_num : (0 : ℚ) < 5)]; exact havg5
  constructor <;> linarith

theorem domainScore_bounds (u : User) (cat : String) :
    0 ≤ u.domainScore cat ∧ u.domainScore cat ≤ 1 := by
  simp only [User.domainScore]
  constructor <;> split_ifs <;> norm_num

theorem priorityMultiplier_bounds (p : String) :
    0.95 ≤ priorityMultiplier p ∧ priorityMultiplier p ≤ 1.2 := by
  rw [priorityMultiplier_eq_spec]
  unfold priorityFactorSpec
  constructor <;> split_ifs <;> norm_num

/-- C5: for well-formed candidate data (non-empty required skills,
non-negative points and resolved count, rating average in 0..5, last
activity not in the future) the final helper score lies in 0..1.2, for
every category and priority. -/
theorem calculateHelperScore_range (u : User) (now : ℚ) (req : List String)
    (cat pri : String) (hreq : req ≠ [])
    (hpts : 0 ≤ u.contributions.points) (hres : 0 ≤ u.contributions.issuesResolved)
    (havg0 : 0 ≤ u.rating.average) (havg5 : u.rating.average ≤ 5)
    (hlast : u.lastActive ≤ now) :
    0 ≤ u.calculateHelperScore now req cat pri ∧
      u.calculateHelperScore now req cat pri ≤ 1.2 := by
  have hs0 := skillScore_nonneg u req
  have hs1 := skillScore_le_one u req hreq
  obtain ⟨hh0, hh1⟩ := historyScore_bounds u hpts hres havg0 havg5
  obtain ⟨he0, he1⟩ := engagementScore_bounds u now hlast
  obtain ⟨hd0, hd1⟩ := domainScore_bounds u cat
  obtain ⟨hp0, hp1⟩ := priorityMultiplier_bounds pri
  simp only [User.calculateHelperScore]
  constructor
  · exact mul_nonneg (by linarith) (by linarith)
  · have hb1 : u.skillScore req * 0.35 + u.historyScore * 0.30 +
        u.domainScore cat * 0.20 + u.engagementScore now * 0.15 ≤ 1 := by linarith
    calc (u.skillScore req * 0.35 + u.historyScore * 0.30 +
          u.domainScore cat * 0.20 + u.engagementScore now * 0.15) *
            priorityMultiplier pri
        ≤ 1 * 1.2 := mul_le_mul hb1 hp1 (by linarith) (by norm_num)
      _ = 1.2 := by norm_num

theorem calculateHelperScore_range_witness :
    0 ≤ User.calculateHelperScore { id := 1 } 0 ["a"] "other" "medium" ∧
      User.calculateHelperScore { id := 1 } 0 ["a"] "other" "medium" ≤ 1.2 :=
  calculateHelperScore_range { id := 1 } 0 ["a"] "other" "medium" (by decide)
    (by norm_num) (by norm_num) (by norm_num) (by norm_num) (by norm_num)

/-- C1: two concurrent accepted help responses for the same open issue,
by responders 2 and 3 toward owner 1, interleaved so that both load
before either saves.  Both commits pass every check, both persist, and
both broadcast issue:assigned to responder and owner; the second save
silently overwrites the first assignment.  There is no conditional
update, so neither response observably fails. -/
theorem helpRespond_race_both_succeed :
    helpRespondRace [{ id := 1, postedBy := 1, status := "open" }]
      { responderId := 2, toUserId := 1, issueId := 1 }
      { responderId := 3, toUserId := 1, issueId := 1 } =
      ([{ id := 1, postedBy := 1, status := "assigned", assignedTo := some 3 }],
       [{ target := "user:2", event := "issue:assigned" },
        { target := "user:1", event := "issue:assigned" }],
       [{ target := "user:3", event := "issue:assigned" },
        { target := "user:1", event := "issue:assigned" }]) := by
  decide

/-- C2: direct assignment performs no status check: assigning helper 2
to issue 1 whose status is already resolved succeeds and moves the
status backward to assigned, instead of being rejected. -/
theorem assignIssue_resolved_to_assigned :
    assignIssue [{ id := 1, postedBy := 1, status := "resolved", assignedTo := some 4 }]
      [{ id := 2 }] 1 1 (some 2) =
      .ok ([{ id := 1, postedBy := 1, status := "assigned", assignedTo := some 2 }],
        { id := 1, postedBy := 1, status := "assigned", assignedTo := some 2 }) :=
  rfl

/-- C8: user 7 registers socket 1, then socket 2 supersedes it; the
stale disconnect of socket 1 nevertheless deletes user 7's forward
entry, so the user goes offline even though socket 2 had won the last
register. -/
theorem handleDisconnect_stale_clobbers :
    ((({} : SocketService).handleConnection { id := 1, userId := 7 }
        |>.handleConnection { id := 2, userId := 7 }
        |>.handleDisconnect { id := 1, userId := 7 }).isUserOnline 7 = false)
  ∧ mapGet ((({} : SocketService).handleConnection { id := 1, userId := 7 }
        |>.handleConnection { id := 2, userId := 7 }).connectedUsers) 7 = some 2 := by
  decide

/-- C9: malformed payloads are not dropped.  A message:send payload with
every key missing still emits message:received to the room
user:undefined and a message:sent confirmation; an issue:update payload
with missing keys is still broadcast to the department room; and an
entirely absent payload throws in the handler instead of being
dropped. -/
theorem malformed_payload_not_dropped :
    handlePrivateMessage 1 (some ({} : PrivateMessagePayload)) =
      .ok [{ target := "user:undefined", event := "message:received" },
           { target := "socket:1", event := "message:sent" }]
  ∧ handleIssueUpdate "it" (some ({} : IssueUpdatePayload)) =
      .ok [{ target := "department:it", event := "issue:updated" }]
  ∧ handlePrivateMessage 1 none =
      .error "TypeError: cannot destructure absent payload" :=
  ⟨rfl, rfl, rfl⟩

/-- C6 counterexample: with an empty requiredSkills list the suggestion
endpoint does not signal an error; it answers 200 success with an empty
helper list (the skill query matches no candidate, even one who has
skills). -/
theorem getHelperSuggestions_emptySkills_no_error :
    getHelperSuggestions [{ id := 1, postedBy := 1, requiredSkills := [] }]
      [{ id := 2, skills := [{ name := "network" }] }] 1 0 =
      .ok { issueId := 1, title := "", requiredSkills := [], helpers := [] } := by
  simp [getHelperSuggestions, findById, potentialHelpers]

/-- C6 amended: for an empty requiredSkills list the suggestion path
signals no error; the candidate query matches no user, the scoring
function is therefore never invoked, and the endpoint returns success
with an empty helper list. -/
theorem getHelperSuggestions_emptySkills (db : List Issue) (users : List User)
    (issueId : ℕ) (now : ℚ) (issue : Issue)
    (hfind : findById db issueId = some issue)
    (hempty : issue.requiredSkills = []) :
    potentialHelpers users issue.requiredSkills = []
  ∧ getHelperSuggestions db users issueId now =
      .ok { issueId := issue.id, title := issue.title, requiredSkills := [],
            helpers := [] } := by
  have hph : potentialHelpers users ([] : List String) = [] := by
    unfold potentialHelpers
    simp
  constructor
  · rw [hempty]; exact hph
  · simp only [getHelperSuggestions, hfind]
    rw [hempty, hph]
    simp [List.mergeSort_nil]

theorem getHelperSuggestions_emptySkills_witness :
    potentialHelpers [{ id := 3, skills := [{ name := "vpn" }] }] ([] : List String) = []
  ∧ getHelperSuggestions [{ id := 1, postedBy := 1, requiredSkills := [] }]
      [{ id := 3, skills := [{ name := "vpn" }] }] 1 0 =
      .ok { issueId := 1, title := "", requiredSkills := [], helpers := [] } :=
  getHelperSuggestions_emptySkills
    [{ id := 1, postedBy := 1, requiredSkills := [] }]
    [{ id := 3, skills := [{ name := "vpn" }] }] 1 0
    { id := 1, postedBy := 1, requiredSkills := [] } rfl rfl

theorem count_zero_of_not_contains {l : List ℕ} {a : ℕ}
    (h : l.contains a = false) : l.count a = 0 := by
  simp at h
  exact List.count_eq_zero.mpr h

theorem count_snoc_left_le_one {l1 l2 : List ℕ} {u : ℕ}
    (h : ∀ w, l1.count w + l2.count w ≤ 1)
    (h1 : l1.contains u = false) (h2 : l2.contains u = false) :
    ∀ w, (l1 ++ [u]).count w + l2.count w ≤ 1 := by
  intro w
  rw [List.count_append]
  by_cases hw : w = u
  · subst hw
    rw [count_zero_of_not_contains h1, count_zero_of_not_contains h2]
    simp
  · have hz : List.count w [u] = 0 := by simp [hw]
    rw [hz]
    simpa using h w

theorem count_snoc_right_le_one {l1 l2 : List ℕ} {u : ℕ}
    (h : ∀ w, l1.count w + l2.count w ≤ 1)
    (h1 : l1.contains u = false) (h2 : l2.contains u = false) :
    ∀ w, l1.count w + (l2 ++ [u]).count w ≤ 1 := by
  intro w
  have := count_snoc_left_le_one (fun w => by simpa [Nat.add_comm] using h w) h2 h1 w
  omega


theorem voteIssue_cases (db : List Issue) (issueId userId : ℕ) (voteType : String) :
    (voteIssue db issueId voteType userId = (db, .badRequest "Invalid vote type"))
  ∨ (voteIssue db issueId voteType userId = (db, .notFound "Issue not found"))
  ∨ (∃ issue, findById db issueId = some issue ∧ issue.canVote userId = false ∧
      voteIssue db issueId voteType userId =
        (db, .badRequest "You have already voted on this issue"))
  ∨ (∃ issue i2, findById db issueId = some issue ∧ issue.canVote userId = true ∧
      (i2 = { issue with upvotes := issue.upvotes ++ [userId] } ∨
       i2 = { issue with downvotes := issue.downvotes ++ [userId] }) ∧
      voteIssue db issueId voteType userId =
        (save db i2, .ok i2.voteCount i2.upvotes.length i2.downvotes.length)) := by
  unfold voteIssue
  cases hct : ["upvote", "downvote"].contains voteType with
  | false => left; simp
  | true =>
    cases hf : findById db issueId with
    | none => right; left; simp
    | some issue =>
      cases hcv : issue.canVote userId with
      | false =>
        have ha : (if voteType = "upvote" then issue.addUpvote userId
            else issue.addDownvote userId) = (issue, false) := by
          split <;> simp [Issue.addUpvote, Issue.addDownvote, hcv]
        right; right; left
        exact ⟨issue, rfl, hcv, by simp [ha]⟩
      | true =>
        right; right; right
        refine ⟨issue, (if voteType = "upvote" then issue.addUpvote userId
            else issue.addDownvote userId).1, rfl, hcv, ?_, ?_⟩
        · by_cases hvt : voteType = "upvote"
          · left; simp [hvt, Issue.addUpvote, hcv]
          · right; simp [hvt, Issue.addDownvote, hcv]
        · have ha2 : (if voteType = "upvote" then issue.addUpvote userId
              else issue.addDownvote userId).2 = true := by
            split <;> simp [Issue.addUpvote, Issue.addDownvote, hcv]
          simp [ha2]

/-- C7: voting is one vote per identity.  Every vote attempt preserves
the invariant that an identity appears in at most one of the two vote
arrays and at most once in it, and a vote by an identity already present
in either array leaves the store untouched and never yields the success
response. -/
theorem voteIssue_one_vote_per_user (db : List Issue) (issueId userId : ℕ)
    (voteType : String) :
    ((∀ i ∈ db, voteInvariant i) →
      ∀ i' ∈ (voteIssue db issueId voteType userId).1, voteInvariant i')
  ∧ (∀ issue, findById db issueId = some issue →
      (issue.upvotes.contains userId = true ∨ issue.downvotes.contains userId = true) →
      (voteIssue db issueId voteType userId).1 = db ∧
        ∀ vc up down, (voteIssue db issueId voteType userId).2 ≠ VoteOutcome.ok vc up down) := by
  rcases voteIssue_cases db issueId userId voteType with
    h | h | ⟨issue, hf, hcv, h⟩ | ⟨issue, i2, hf, hcv, hi2, h⟩
  · exact ⟨fun hinv i' hi' => hinv i' (by rwa [h] at hi'),
      fun _ _ _ => ⟨by rw [h], fun vc up down => by rw [h]; simp⟩⟩
  · exact ⟨fun hinv i' hi' => hinv i' (by rwa [h] at hi'),
      fun _ _ _ => ⟨by rw [h], fun vc up down => by rw [h]; simp⟩⟩
  · exact ⟨fun hinv i' hi' => hinv i' (by rwa [h] at hi'),
      fun _ _ _ => ⟨by rw [h], fun vc up down => by rw [h]; simp⟩⟩
  · have hcv' : issue.upvotes.contains userId = false ∧
        issue.downvotes.contains userId = false := by
      have hc := hcv
      unfold Issue.canVote at hc
      simp only [Bool.and_eq_true, Bool.not_eq_true'] at hc
      exact hc
    constructor
    · intro hinv i' hi'
      rw [h] at hi'
      unfold save at hi'
      obtain ⟨j, hj, rfl⟩ := List.mem_map.mp hi'
      split
      · have hissue : voteInvariant issue :=
          hinv issue (List.mem_of_find?_eq_some hf)
        rcases hi2 with rfl | rfl
        · intro w
          exact count_snoc_left_le_one hissue hcv'.1 hcv'.2 w
        · intro w
          exact count_snoc_right_le_one hissue hcv'.1 hcv'.2 w
      · exact hinv j hj
    · intro issue' hf' hvoted
      rw [hf] at hf'
      injection hf' with he
      subst he
      exfalso
      have hmem : userId ∉ issue.upvotes ∧ userId ∉ issue.downvotes := by
        simpa using hcv'
      rcases hvoted with hv | hv
      · exact hmem.1 (by simpa using hv)
      · exact hmem.2 (by simpa using hv)

theorem voteIssue_one_vote_per_user_witness :
    (voteIssue [{ id := 1, postedBy := 1, upvotes := [5] }] 1 "downvote" 5).1 =
      [{ id := 1, postedBy := 1, upvotes := [5] }]
  ∧ ∀ vc up down,
      (voteIssue [{ id := 1, postedBy := 1, upvotes := [5] }] 1 "downvote" 5).2 ≠
        VoteOutcome.ok vc up down :=
  (voteIssue_one_vote_per_user [{ id := 1, postedBy := 1, upvotes := [5] }] 1 5
      "downvote").2 { id := 1, postedBy := 1, upvotes := [5] } rfl (Or.inl rfl)

theorem domainScore_other (w : User) : w.domainScore "other" = 0.2 := by
  have h : ((categoryToDepartments.lookup "other").getD []) = ([] : List String) := rfl
  simp only [User.domainScore]
  rw [h]
  simp

theorem priorityMultiplier_medium : priorityMultiplier "medium" = 1 := by
  have h : priorityMultiplier "medium" = (1.0 : ℚ) := rfl
  rw [h]
  norm_num

/-- C10: the suggestion endpoint scores candidates with only the issue's
required skills, so category and priority take their defaults "other" and
"medium"; under those defaults every candidate's domain sub-score is the
constant 0.2 and the priority multiplier is 1; the response holds at most
ten helpers, sorted by score in descending order. -/
theorem getHelperSuggestions_top10 (db : List Issue) (users : List User)
    (issueId : ℕ) (now : ℚ) (issue : Issue) (resp : SuggestionsData)
    (hfind : findById db issueId = some issue)
    (hrun : getHelperSuggestions db users issueId now = .ok resp) :
    (∀ sh ∈ resp.helpers, sh.helperScore =
      sh.helper.calculateHelperScore now issue.requiredSkills "other" "medium")
  ∧ (∀ w : User, w.domainScore "other" = 0.2)
  ∧ priorityMultiplier "medium" = 1
  ∧ resp.helpers.length ≤ 10
  ∧ resp.helpers.Pairwise (fun a b => b.helperScore ≤ a.helperScore) := by
  simp only [getHelperSuggestions, hfind, Except.ok.injEq] at hrun
  subst hrun
  refine ⟨?_, domainScore_other, priorityMultiplier_medium, ?_, ?_⟩
  · intro sh hsh
    have h1 := (List.take_sublist 10 _).mem hsh
    have h2 := List.mem_mergeSort.mp h1
    obtain ⟨u, hu, rfl⟩ := List.mem_map.mp h2
    rfl
  · rw [List.length_take]
    exact min_le_left _ _
  · have htrans : ∀ a b c : ScoredHelper,
        decide (b.helperScore ≤ a.helperScore) = true →
        decide (c.helperScore ≤ b.helperScore) = true →
        decide (c.helperScore ≤ a.helperScore) = true := by
      intro a b c hab hbc
      exact decide_eq_true (le_trans (of_decide_eq_true hbc) (of_decide_eq_true hab))
    have htotal : ∀ a b : ScoredHelper,
        (decide (b.helperScore ≤ a.helperScore) ||
          decide (a.helperScore ≤ b.helperScore)) = true := by
      intro a b
      rcases le_total b.helperScore a.helperScore with h | h <;> simp [h]
    have hp := List.sorted_mergeSort htrans htotal
      ((potentialHelpers users issue.requiredSkills).map
        (fun u => ScoredHelper.mk u
          (u.calculateHelperScore now issue.requiredSkills "other" "medium")))
    have hp2 := hp.imp (fun hd => of_decide_eq_true hd)
    exact hp2.sublist (List.take_sublist 10 _)

theorem getHelperSuggestions_top10_witness :
    (∀ sh ∈ ({ issueId := 9, title := "t", requiredSkills := ["x"], helpers := [] } :
        SuggestionsData).helpers,
      sh.helperScore = sh.helper.calculateHelperScore 0 ["x"] "other" "medium")
  ∧ (∀ w : User, w.domainScore "other" = 0.2)
  ∧ priorityMultiplier "medium" = 1
  ∧ ({ issueId := 9, title := "t", requiredSkills := ["x"], helpers := [] } :
      SuggestionsData).helpers.length ≤ 10
  ∧ ({ issueId := 9, title := "t", requiredSkills := ["x"], helpers := [] } :
      SuggestionsData).helpers.Pairwise (fun a b => b.helperScore ≤ a.helperScore) :=
  getHelperSuggestions_top10
    [{ id := 9, postedBy := 1, title := "t", requiredSkills := ["x"] }] [] 9 0
    { id := 9, postedBy := 1, title := "t", requiredSkills := ["x"] }
    { issueId := 9, title := "t", requiredSkills := ["x"], helpers := [] }
    rfl (by simp [getHelperSuggestions, findById, potentialHelpers])
